import Mathlib

/-!
Verification of the MajorMail email-assistant backend.

Python strings are modelled as lists of characters (`PyStr`), Python
`Optional[str]` values as `Option PyStr`, SQL rows as Lean structures, and
the database as an in-memory list of rows.  Each definition below mirrors
one function of the repository (file and function named in its comment).
The machine-learning summarization pipeline is the only opaque part: it is
passed in as an oracle of type `Option (PyStr -> ModelResult)`, `none`
meaning the module-level pipeline failed to load at process start.
-/

namespace MajorMail

/-- Python `str` modelled as a list of characters. -/
abbrev PyStr := List Char

/-- Python `str.lower()`: characterwise lowering. -/
def lowerStr (s : PyStr) : PyStr := s.map Char.toLower

/-- Python `needle in hay` on strings: `needle` occurs as a contiguous
substring of `hay` (the empty needle always occurs). -/
def strContains (hay needle : PyStr) : Bool :=
  (List.range (hay.length + 1)).any (fun i => needle.isPrefixOf (hay.drop i))

/-- Truthiness of a Python `Optional[str]`: `None` and `""` are falsy. -/
def pyTruthy (o : Option PyStr) : Bool :=
  match o with
  | none => false
  | some s => !s.isEmpty

/-- Rendering of an `Optional[str]` inside a Python f-string:
`None` renders as the four characters `None`. -/
def pyFString (o : Option PyStr) : PyStr :=
  match o with
  | none => "None".data
  | some s => s

/-- `d.get(key, "") or ""`: an absent or `None` field becomes `""`. -/
def getOrEmpty (o : Option PyStr) : PyStr := o.getD []

/-! ### `source/ai_service.py` — the four annotators -/

/-- Sentinel returned by `summarize_text` when the module-level pipeline
is `None` (`ai_service.py`). -/
def unavailableMsg : PyStr := "Summarization service is not available".data

/-- Sentinel returned when the pipeline yields an empty result list. -/
def emptySummaryMsg : PyStr := "Could not generate summary".data

/-- Sentinel returned when the pipeline call raises (`except` branch). -/
def summaryErrorMsg : PyStr := "Error during summary generation.".data

/-- Outcome of one call of the summarization pipeline: a summary string,
an empty result list, or a raised exception. -/
inductive ModelResult where
  | ok (s : PyStr)
  | empty
  | err
deriving DecidableEq

/-- `ai_service.summarize_text` (lines 14-41).  The module-level
`summarizer` is the explicit first argument; `max_chunk_size = 1024`. -/
def summarize_text (summarizer : Option (PyStr → ModelResult)) (text : PyStr) : PyStr :=
  match summarizer with
  | none => unavailableMsg
  | some model =>
    if text.length < 100 then text
    else
      match model (text.take 1024) with
      | .ok s => s
      | .empty => emptySummaryMsg
      | .err => summaryErrorMsg

/-- `ai_service.KEYWORD_CATEGORIES`, in declaration order (a Python dict
preserves insertion order). -/
def KEYWORD_CATEGORIES : List (String × List PyStr) :=
  [ ("Promotions",
      [ "sale".data, "discount".data, "offer".data, "unsubscribe".data, "coupon".data,
        "deal".data, "limited time".data, "free shipping".data, "shop now".data,
        "view collection".data, "save now".data ]),
    ("Updates",
      [ "update".data, "notification".data, "alert".data, "shipping".data, "delivery".data,
        "order".data, "confirmation".data, "receipt".data, "invoice".data,
        "statement".data, "policy change".data ]),
    ("Work",
      [ "meeting".data, "report".data, "project".data, "deadline".data, "task".data,
        "agenda".data, "team".data, "collaboration".data, "document".data,
        "presentation".data, "feedback".data, "zoom".data ]),
    ("Personal",
      [ "happy birthday".data, "congratulations".data, "invitation".data, "family".data,
        "friend".data, "trip".data, "vacation".data, "photos".data, "event".data,
        "party".data ]),
    ("Finance",
      [ "bank".data, "payment".data, "invoice".data, "receipt".data, "statement".data,
        "due date".data, "credit card".data, "investment".data, "stock".data,
        "market update".data, "bill".data ]),
    ("Social",
      [ "linkedin".data, "facebook".data, "twitter".data, "instagram".data,
        "mentioned you".data, "new post".data, "tagged you".data, "friend request".data,
        "new connection".data ]),
    ("Newsletters",
      [ "newsletter".data, "digest".data, "weekly".data, "daily".data, "monthly".data,
        "subscribe".data, "edition".data, "latest issue".data, "top stories".data ]) ]

/-- Score of one category: the number of its keyword phrases occurring in
the lowered text (`if keyword in lower_text: scores[category] += 1`). -/
def keywordScore (keywords : List PyStr) (lower_text : PyStr) : Nat :=
  (keywords.filter (fun k => strContains lower_text k)).length

/-- The `scores` dict of `classify_email`, in category declaration order. -/
def classifyScores (text : PyStr) : List (String × Nat) :=
  KEYWORD_CATEGORIES.map (fun c => (c.1, keywordScore c.2 (lowerStr text)))

/-- One iteration of the final loop of `classify_email`:
`if score > max_score: max_score, best_category = score, category`. -/
def bestStep (acc p : String × Nat) : String × Nat :=
  if acc.2 < p.2 then p else acc

/-- `ai_service.classify_email` (lines 77-98): keyword scores per category,
then the loop keeping the first category whose score strictly exceeds the
running maximum, starting from `("Uncategorized", 0)`. -/
def classify_email (text : PyStr) : String :=
  ((classifyScores text).foldl bestStep ("Uncategorized", 0)).1

/-- `ai_service.HIGH_PRIORITY_KEYWORDS`. -/
def HIGH_PRIORITY_KEYWORDS : List PyStr :=
  [ "urgent".data, "important".data, "action required".data,
    "response needed".data, "asap".data ]

/-- `ai_service.LOW_PRIORITY_KEYWORDS`. -/
def LOW_PRIORITY_KEYWORDS : List PyStr :=
  [ "unsubscribe".data, "newsletter".data, "promotional".data,
    "advertisement".data, "sale".data ]

/-- The `email_data` dict built in `main.py` and passed to
`calculate_priority_score`. -/
structure PyEmailData where
  subject : Option PyStr
  body : Option PyStr
  sender : Option PyStr
deriving DecidableEq

/-- `ai_service.calculate_priority_score` (lines 103-142): additive rule
sum (+15 high keyword, -10 low keyword, +10 when the user's lowered
address does not occur in the lowered sender header, +5 question mark). -/
def calculate_priority_score (email_data : PyEmailData) (user_email : PyStr) : Int :=
  let subject := getOrEmpty email_data.subject
  let body := getOrEmpty email_data.body
  let full_text := lowerStr (subject ++ " ".data ++ body)
  let score1 : Int := if HIGH_PRIORITY_KEYWORDS.any (fun k => strContains full_text k) then 15 else 0
  let score2 : Int := if LOW_PRIORITY_KEYWORDS.any (fun k => strContains full_text k) then 10 else 0
  let sender_header := getOrEmpty email_data.sender
  let score3 : Int := if strContains (lowerStr sender_header) (lowerStr user_email) then 0 else 10
  let score4 : Int := if strContains body "?".data then 5 else 0
  score1 - score2 + score3 + score4

/-- `ACTION_KEYWORDS["Schedule Event"]`. -/
def scheduleEventKeywords : List PyStr :=
  [ "schedule".data, "meeting".data, "call".data, "appointment".data,
    "zoom link".data, "calendar".data, "confirm a time".data ]

/-- `ACTION_KEYWORDS["Reply Needed"]`. -/
def replyNeededKeywords : List PyStr :=
  [ "feedback".data, "your thoughts".data, "let me know".data, "confirm".data,
    "are you available".data, "question is".data ]

/-- `ACTION_KEYWORDS["For Your Information (FYI)"]`. -/
def fyiKeywords : List PyStr :=
  [ "update".data, "fyi".data, "just so you know".data, "heads up".data,
    "announcement".data, "receipt".data, "confirmation".data ]

/-- `ai_service.determine_action` (lines 151-175): the no-action category
set short-circuits everything; otherwise the three keyword sets are
checked in fixed order, then Work/Personal/Finance default to
"Reply Needed", otherwise `None`. -/
def determine_action (text : PyStr) (category : String) : Option String :=
  if category ∈ ["Promotions", "Newsletters", "Social", "Updates"] then
    some "No Action Needed"
  else
    let lower_text := lowerStr text
    if scheduleEventKeywords.any (fun k => strContains lower_text k) then
      some "Schedule Event"
    else if replyNeededKeywords.any (fun k => strContains lower_text k) then
      some "Reply Needed"
    else if fyiKeywords.any (fun k => strContains lower_text k) then
      some "For Your Information (FYI)"
    else if category ∈ ["Work", "Personal", "Finance"] then
      some "Reply Needed"
    else
      none

example : classify_email ("unsubscribe discount".data) = "Promotions" := by decide
example : determine_action ("urgent meeting".data) "Promotions" = some "No Action Needed" := by decide
example : calculate_priority_score
    ⟨none, some "urgent sale?".data, some "alice@example.com".data⟩
    ("bob@example.com".data) = 20 := by decide

/-! ### `source/models.py` and `source/crud.py` — rows and the store -/

/-- One row of the `email` table (`models.Email`).  Timestamps are
abstracted to integers measured in days. -/
structure Email where
  id : Nat
  owner_id : Nat
  message_id : String
  subject : Option PyStr
  sender : Option PyStr
  body : Option PyStr
  summary : Option PyStr
  category : String
  priority_score : Int
  suggested_action : Option String
  received_at : Option Int
deriving DecidableEq

/-- The `parsed_email` dict handed to `crud.create_email` (annotation
fields are absent: the row gets their column defaults). -/
structure EmailDraft where
  message_id : String
  subject : Option PyStr
  sender : Option PyStr
  body : Option PyStr
  received_at : Option Int
deriving DecidableEq

/-- The email table plus its autoincrement counter. -/
structure Store where
  emails : List Email
  nextId : Nat
deriving DecidableEq

/-- A committed write of one loaded row back to the table (the flush of a
session whose identity-mapped object with this primary key was mutated). -/
def writeEmail (db : Store) (e : Email) : Store :=
  { db with emails := db.emails.map (fun x => if x.id == e.id then e else x) }

/-- `crud.create_email` (lines 82-103): select by `message_id` over the
whole table (not filtered by owner); on a hit return without writing,
otherwise insert a new row with the model's column defaults
(`summary = NULL`, `category = "Uncategorized"`, `priority_score = 0`,
`suggested_action = NULL`).  `newEmailRow` is the inserted row. -/
def newEmailRow (db : Store) (ownerId : Nat) (email_data : EmailDraft) : Email :=
  { id := db.nextId
    owner_id := ownerId
    message_id := email_data.message_id
    subject := email_data.subject
    sender := email_data.sender
    body := email_data.body
    summary := none
    category := "Uncategorized"
    priority_score := 0
    suggested_action := none
    received_at := email_data.received_at }

def create_email (db : Store) (ownerId : Nat) (email_data : EmailDraft) : Store :=
  if db.emails.any (fun e => e.message_id == email_data.message_id) then db
  else { emails := db.emails ++ [newEmailRow db ownerId email_data]
         nextId := db.nextId + 1 }

/-! ### `main.py` — the annotation orchestrator

`process_single_email` (main.py lines 49-97) opens its own session
(`expire_on_commit=False`), loads the row, and runs the four annotator
steps.  `crud.update_email_summary` COMMITS immediately (crud.py line
126), while `update_email_category` / `update_email_priority` /
`update_email_action` only stage their mutation; the staged mutations are
flushed by the single `session.commit()` at the end of the run.  When the
categorization branch is skipped (`email.category != "Uncategorized"`)
the local variables `full_text` and `category` are never assigned, so the
unconditional action step raises an unbound-local error before the final
commit; the `except` branch rolls the session back. -/

/-- Observable outcome of one `process_single_email` run:
the store afterwards, whether `ai_service.summarize_text` was invoked,
whether a priority score was staged, whether the final commit at the end
of the run executed, and whether the action step raised the unbound-local
error. -/
structure RunOutcome where
  db : Store
  invokedSummarizer : Bool
  stagedPriority : Bool
  committedAll : Bool
  raisedUnboundLocal : Bool
deriving DecidableEq

/-- The row after `email_to_update.summary = summary` in
`crud.update_email_summary`. -/
def withSummary (e : Email) (s : PyStr) : Email := { e with summary := some s }

/-- The summarization step: `if not email.summary:` run the summarizer and
call `crud.update_email_summary`, which mutates the loaded row AND commits
it at once.  Returns the (possibly updated) row, the store after the step,
and whether the summarizer was invoked. -/
def stepSummary (db : Store) (summarizer : Option (PyStr → ModelResult))
    (email : Email) : Email × Store × Bool :=
  if pyTruthy email.summary then (email, db, false)
  else
    let s := summarize_text summarizer (email.body.getD [])
    (withSummary email s, writeEmail db (withSummary email s), true)

/-- Steps 2-4 of a run in which the categorization branch is taken:
classify `full_text = f"{email.subject} {email.body}"`, stage the
category, stage the recomputed priority score, and stage the suggested
action when `determine_action` returns a truthy value. -/
def annotateRest (email1 : Email) (user_email : PyStr) : Email :=
  let full_text := pyFString email1.subject ++ " ".data ++ pyFString email1.body
  let category := classify_email full_text
  let e2 := { email1 with category := category }
  let score := calculate_priority_score ⟨e2.subject, e2.body, e2.sender⟩ user_email
  let e3 := { e2 with priority_score := score }
  match determine_action full_text category with
  | some a => if a = "" then e3 else { e3 with suggested_action := some a }
  | none => e3

/-- The part of a run after the body-truthiness guard.  In the branch
where the categorization step is skipped, the priority score is still
computed and staged, but evaluating the arguments of the action step
raises the unbound-local error and the session is rolled back, leaving
the store as it was after the summary step's own commit. -/
def processBody (db : Store) (summarizer : Option (PyStr → ModelResult))
    (email : Email) (user_email : PyStr) : RunOutcome :=
  let s := stepSummary db summarizer email
  if s.1.category = "Uncategorized" then
    ⟨writeEmail s.2.1 (annotateRest s.1 user_email), s.2.2, true, true, false⟩
  else
    ⟨s.2.1, s.2.2, true, false, true⟩

/-- `main.process_single_email` (lines 49-97). -/
def process_single_email (db : Store) (summarizer : Option (PyStr → ModelResult))
    (email_id : Nat) (user_email : PyStr) : RunOutcome :=
  match db.emails.find? (fun e => e.id == email_id) with
  | none => ⟨db, false, false, false, false⟩
  | some email =>
    if pyTruthy email.body then processBody db summarizer email user_email
    else ⟨db, false, false, false, false⟩

/-! ### `source/crud.py` — the dossier aggregator -/

/-- `Email.sender.ilike(f"%{search_query}%")`: case-insensitive substring
match; a `NULL` sender matches nothing. -/
def matchesSender (sender : Option PyStr) (search_query : PyStr) : Bool :=
  match sender with
  | none => false
  | some s => strContains (lowerStr s) (lowerStr search_query)

/-- `Email.received_at >= six_months_ago`; a `NULL` timestamp fails the
SQL comparison. -/
def inWindow (received_at : Option Int) (cutoff : Int) : Bool :=
  match received_at with
  | none => false
  | some t => cutoff ≤ t

/-- The WHERE clause of `get_dossier_for_sender`. -/
def dossierMatch (userId : Nat) (search_query : PyStr) (cutoff : Int) (e : Email) : Bool :=
  e.owner_id == userId && matchesSender e.sender search_query
    && inWindow e.received_at cutoff

/-- Number of occurrences of `x` in `l` (one bucket of a Python Counter). -/
def countEq (l : List String) (x : String) : Nat := l.countP (fun y => y == x)

/-- The distinct values of `l` in order of first occurrence (the iteration
order of a Python Counter built from `l`). -/
def firstOccurrences (l : List String) : List String :=
  l.foldl (fun acc x => if acc.any (fun y => y == x) then acc else acc ++ [x]) []

/-- `dict(Counter(l))` as an association list in Counter iteration order. -/
def counterToList (l : List String) : List (String × Nat) :=
  (firstOccurrences l).map (fun x => (x, countEq l x))

/-- `Counter(l).most_common(1)[0][0]`: the most frequent element; ties are
broken in favour of the earliest first occurrence (Counter insertion order
is preserved by the stable sort inside `most_common`). -/
def mostCommon1 (l : List String) : Option String :=
  (firstOccurrences l).foldl
    (fun best x =>
      match best with
      | none => some x
      | some b => if countEq l b < countEq l x then some x else best)
    none

/-- Round to the nearest integer, ties to even (Python `round`). -/
def roundHalfEven (x : ℚ) : Int :=
  let n := ⌊x⌋
  let f := x - (n : ℚ)
  if f < 1 / 2 then n
  else if 1 / 2 < f then n + 1
  else if n % 2 = 0 then n else n + 1

/-- Python `round(x, 2)` on an exact rational. -/
def roundTo2 (x : ℚ) : ℚ := (roundHalfEven (100 * x) : ℚ) / 100

/-- The dict returned by `get_dossier_for_sender`.  The ISO rendering of a
timestamp in `conversation_history` is abstracted to the timestamp itself;
`strftime` date rendering is abstracted by the `fmtDate` argument of
`get_dossier_for_sender`. -/
structure DossierOut where
  total_emails : Nat
  category_counts : List (String × Nat)
  average_priority_score : ℚ
  latest_email_summary : Option PyStr
  most_common_action : Option String
  conversation_history : List (PyStr × Option PyStr × Option Int × Option String)
  period_covered : String
deriving DecidableEq

/-- The SELECT of `get_dossier_for_sender`: rows of the user whose sender
contains the query (case-insensitively) received in the trailing 180-day
window, ordered by `received_at` descending.  Time is measured in days, so
`six_months_ago = now - 180`. -/
def dossierSelect (db : Store) (userId : Nat) (search_query : PyStr) (now : Int) : List Email :=
  (db.emails.filter (dossierMatch userId search_query (now - 180))).mergeSort
    (fun a b => b.received_at.getD 0 ≤ a.received_at.getD 0)

/-- The aggregation part of `get_dossier_for_sender` (crud.py lines
180-263), applied to the selected rows. -/
def dossierOf (sender_emails : List Email) (fmtDate : Int → String) : DossierOut :=
  match sender_emails with
  | [] => ⟨0, [], 0, none, none, [], "No emails found in last 6 months"⟩
  | first :: rest =>
    let se := first :: rest
    let total_priority : Int := (se.map (fun e => e.priority_score)).sum
    let actions := se.filterMap (fun e =>
      match e.suggested_action with
      | some a => if a = "" then none else some a
      | none => none)
    let oldest : Option Int := (se.getLast?).bind (fun e => e.received_at)
    let newest : Option Int := first.received_at
    { total_emails := se.length
      category_counts := counterToList (se.map (fun e => e.category))
      average_priority_score :=
        if 0 < se.length then
          roundTo2 ((total_priority : ℚ) / (se.length : ℚ))
        else 0
      latest_email_summary := first.summary
      most_common_action := if actions.isEmpty then some "None" else mostCommon1 actions
      conversation_history := se.map (fun e =>
        (if pyTruthy e.subject then e.subject.getD [] else "No Subject".data,
         e.summary, e.received_at, e.suggested_action))
      period_covered :=
        match oldest, newest with
        | some o, some n => fmtDate o ++ " to " ++ fmtDate n
        | _, _ => "Date range not available" }

/-- `crud.get_dossier_for_sender`: selection then aggregation. -/
def get_dossier_for_sender (db : Store) (userId : Nat) (search_query : PyStr)
    (now : Int) (fmtDate : Int → String) : DossierOut :=
  dossierOf (dossierSelect db userId search_query now) fmtDate

/-! ### Definitions following the spec's words (for refinement claims) -/

/-- The largest score in a scored category list. -/
def maxScore (l : List (String × Nat)) : Nat := (l.map Prod.snd).foldr max 0

/-- The categorizer as the spec describes it: pick the highest-scoring
category, ties broken by first-declared category order, and return
"Uncategorized" exactly when every category scores zero. -/
def specClassify (text : PyStr) : String :=
  let scored := classifyScores text
  let m := maxScore scored
  if m = 0 then "Uncategorized"
  else ((scored.find? (fun p => p.2 == m)).map Prod.fst).getD "Uncategorized"

/-! ### Concrete sample data used by closed theorems and witnesses -/

/-- A stored message with a body, no summary yet, and a non-default
category — the state that makes a run take the unbound-local path after
the summary step's own commit. -/
def atomicityEmail : Email :=
  { id := 1, owner_id := 1, message_id := "m1",
    subject := some ("hello".data), sender := some ("alice@example.com".data),
    body := some ("hello?".data), summary := none, category := "Work",
    priority_score := 0, suggested_action := none, received_at := some 0 }

def atomicityStore : Store := ⟨[atomicityEmail], 2⟩

/-- A freshly ingested message: all annotation fields at their column
defaults. -/
def freshEmail : Email :=
  { id := 1, owner_id := 1, message_id := "m2",
    subject := some ("team meeting".data), sender := some ("alice@example.com".data),
    body := some ("see you?".data), summary := none, category := "Uncategorized",
    priority_score := 0, suggested_action := none, received_at := some 5 }

def freshStore : Store := ⟨[freshEmail], 2⟩

/-- The fresh message after a successful run (summary set, category no
longer at its default). -/
def processedEmail : Email :=
  { freshEmail with
    summary := some ("done".data)
    category := "Work"
    priority_score := 15
    suggested_action := some "Schedule Event" }

def processedStore : Store := ⟨[processedEmail], 2⟩

/-- A message whose summary is set but whose category is still at its
default (so a second run re-enters the categorization branch). -/
def stillUncatEmail : Email := { freshEmail with summary := some ("done".data) }

def stillUncatStore : Store := ⟨[stillUncatEmail], 2⟩

def sampleDraft : EmailDraft :=
  { message_id := "x1", subject := some ("s".data), sender := some ("a@b.c".data),
    body := some ("hello".data), received_at := some 1 }

def emptyStore : Store := ⟨[], 1⟩

def dossierEmailA : Email :=
  { id := 1, owner_id := 1, message_id := "d1",
    subject := some ("q1".data), sender := some ("Alice Smith <alice@corp.com>".data),
    body := some ("b1".data), summary := some ("s1".data), category := "Work",
    priority_score := 7, suggested_action := some "Reply Needed", received_at := some 950 }

def dossierEmailB : Email :=
  { id := 2, owner_id := 1, message_id := "d2",
    subject := none, sender := some ("alice@corp.com".data),
    body := some ("b2".data), summary := some ("s2".data), category := "Work",
    priority_score := 4, suggested_action := none, received_at := some 900 }

def dossierStore : Store := ⟨[dossierEmailA, dossierEmailB], 3⟩

/-! ### Substring lemmas -/

theorem strContains_iff {hay needle : PyStr} :
    strContains hay needle = true ↔
      ∃ i, i ≤ hay.length ∧ needle.isPrefixOf (hay.drop i) = true := by
  simp [strContains, List.any_eq_true, List.mem_range, Nat.lt_succ_iff]

theorem strContains_append_left (s t n : PyStr) (h : strContains t n = true) :
    strContains (s ++ t) n = true := by
  rcases strContains_iff.mp h with ⟨i, hi, hp⟩
  refine strContains_iff.mpr ⟨s.length + i, ?_, ?_⟩
  · simp only [List.length_append]
    omega
  · have hdrop : (s ++ t).drop (s.length + i) = t.drop i := by
      rw [← List.drop_drop, List.drop_left]
    rw [hdrop]
    exact hp

theorem strContains_lowerStr (t n : PyStr) (hn : lowerStr n = n)
    (h : strContains t n = true) : strContains (lowerStr t) n = true := by
  rcases strContains_iff.mp h with ⟨i, hi, hp⟩
  refine strContains_iff.mpr ⟨i, ?_, ?_⟩
  · simpa [lowerStr] using hi
  · have hpre : n <+: t.drop i := List.isPrefixOf_iff_prefix.mp hp
    have hmap : n.map Char.toLower <+: (t.drop i).map Char.toLower :=
      List.IsPrefix.map _ hpre
    rw [List.map_drop] at hmap
    rw [show n.map Char.toLower = n from hn] at hmap
    exact List.isPrefixOf_iff_prefix.mpr (by simpa [lowerStr] using hmap)

/-! ### Claims C4, C6, C7, C8 — the annotators -/

/-- C4, counterexample to the claim as stated: the body
`"urgent sale?"` contains `"urgent"` and `"?"`, and the sender does not
contain the user's address, yet the score is 20, not 30 — the word
`"sale"` triggers the low-priority rule (-10). -/
theorem priority_urgent_question_cex :
    strContains ("urgent sale?".data) ("urgent".data) = true ∧
    strContains ("urgent sale?".data) ("?".data) = true ∧
    strContains (lowerStr ("alice@example.com".data))
      (lowerStr ("bob@example.com".data)) = false ∧
    calculate_priority_score
      ⟨none, some ("urgent sale?".data), some ("alice@example.com".data)⟩
      ("bob@example.com".data) = 20 := by
  decide

/-- C4 (amended): for every message whose body contains `"urgent"` and a
`"?"`, whose lowered subject-plus-body contains none of the low-priority
keywords, and whose sender text does not contain the owning user's
address case-insensitively, `calculate_priority_score` returns exactly
30 = 15 (urgency keyword) + 10 (not self) + 5 (question mark). -/
theorem priority_urgent_question_score (subject sender : Option PyStr)
    (body user_email : PyStr)
    (hurgent : strContains body ("urgent".data) = true)
    (hq : strContains body ("?".data) = true)
    (hlow : ∀ k ∈ LOW_PRIORITY_KEYWORDS,
      strContains (lowerStr (getOrEmpty subject ++ " ".data ++ body)) k = false)
    (hsender : strContains (lowerStr (getOrEmpty sender)) (lowerStr user_email) = false) :
    calculate_priority_score ⟨subject, some body, sender⟩ user_email = 30 := by
  have hhigh : HIGH_PRIORITY_KEYWORDS.any
      (fun k => strContains (lowerStr (getOrEmpty subject ++ " ".data ++ body)) k) = true := by
    refine List.any_eq_true.mpr ⟨"urgent".data, ?_, ?_⟩
    · simp [HIGH_PRIORITY_KEYWORDS]
    · exact strContains_lowerStr _ _ (by decide) (strContains_append_left _ _ _ hurgent)
  have hlowany : LOW_PRIORITY_KEYWORDS.any
      (fun k => strContains (lowerStr (getOrEmpty subject ++ " ".data ++ body)) k) = false := by
    refine List.any_eq_false.mpr ?_
    intro k hk
    rw [hlow k hk]
    simp
  simp only [calculate_priority_score]
  rw [show getOrEmpty (some body) = body from rfl]
  rw [hhigh, hlowany, hsender, hq]
  norm_num

/-- C4 witness: a concrete input satisfying the amended hypotheses on
which the theorem yields the score 30. -/
theorem priority_urgent_question_score_witness :
    calculate_priority_score
      ⟨none, some ("urgent?".data), some ("alice@example.com".data)⟩
      ("bob@example.com".data) = 30 :=
  priority_urgent_question_score none (some ("alice@example.com".data))
    ("urgent?".data) ("bob@example.com".data)
    (by decide) (by decide) (by decide) (by decide)

/-- C6: for every input text, a category in the fixed no-action set
(Promotions, Newsletters, Social, Updates) makes `determine_action`
return "No Action Needed" unconditionally, before any keyword check. -/
theorem determine_action_short_circuit (text : PyStr) (category : String)
    (h : category ∈ ["Promotions", "Newsletters", "Social", "Updates"]) :
    determine_action text category = some "No Action Needed" := by
  simp only [determine_action]
  rw [if_pos h]

/-- C6 witness: a body full of action keywords still yields
"No Action Needed" under the category "Promotions". -/
theorem determine_action_short_circuit_witness :
    determine_action ("please schedule a meeting and give feedback?".data)
      "Promotions" = some "No Action Needed" :=
  determine_action_short_circuit
    ("please schedule a meeting and give feedback?".data) "Promotions" (by decide)

/-- C7: with the summarization pipeline loaded, every input text shorter
than 100 characters is returned unchanged by `summarize_text`. -/
theorem summarize_short_identity (model : PyStr → ModelResult) (text : PyStr)
    (h : text.length < 100) : summarize_text (some model) text = text := by
  simp [summarize_text, h]

/-- C7 witness: a concrete 5-character input with a concrete pipeline. -/
theorem summarize_short_identity_witness :
    ("hello".data).length < 100 ∧
    summarize_text (some (fun _ => ModelResult.empty)) ("hello".data) = "hello".data :=
  ⟨by decide, summarize_short_identity (fun _ => ModelResult.empty) ("hello".data) (by decide)⟩

/-- C8: when the module-level summarizer failed to load (`none`),
`summarize_text` returns the fixed unavailability sentinel for every
input, including inputs shorter than 100 characters, because the
availability check precedes the short-input pass-through. -/
theorem summarize_unavailable_sentinel :
    (∀ text : PyStr, summarize_text none text = unavailableMsg) ∧
    summarize_text none ("hi".data) = unavailableMsg ∧ ("hi".data).length < 100 :=
  ⟨fun _ => rfl, rfl, by decide⟩

/-! ### Characterization of the `classify_email` selection loop -/

theorem maxScore_cons (x : String × Nat) (l : List (String × Nat)) :
    maxScore (x :: l) = max x.2 (maxScore l) := rfl

theorem le_maxScore_of_mem : ∀ {l : List (String × Nat)} {p : String × Nat},
    p ∈ l → p.2 ≤ maxScore l := by
  intro l
  induction l with
  | nil => intro p hp; simp at hp
  | cons x t ih =>
    intro p hp
    rw [maxScore_cons]
    rcases List.mem_cons.mp hp with h | h
    · rw [h]; exact Nat.le_max_left _ _
    · exact le_trans (ih h) (Nat.le_max_right _ _)

theorem maxScore_eq_zero_iff (l : List (String × Nat)) :
    maxScore l = 0 ↔ ∀ p ∈ l, p.2 = 0 := by
  induction l with
  | nil => simp [maxScore]
  | cons x t ih =>
    rw [maxScore_cons]
    simp [Nat.max_eq_zero_iff, ih, List.forall_mem_cons]

theorem findCongr {α : Type} (p q : α → Bool) :
    ∀ (l : List α), (∀ x ∈ l, p x = q x) → l.find? p = l.find? q := by
  intro l
  induction l with
  | nil => intro _; rfl
  | cons x t ih =>
    intro h
    have hx : p x = q x := h x (by simp)
    cases hpx : p x with
    | true =>
      rw [List.find?_cons_of_pos _ hpx, List.find?_cons_of_pos _ (by rw [← hx]; exact hpx)]
    | false =>
      rw [List.find?_cons_of_neg _ (by simp [hpx]),
        List.find?_cons_of_neg _ (by simp [← hx, hpx])]
      exact ih (fun y hy => h y (by simp [hy]))

theorem find?_maxScore_isSome : ∀ (l : List (String × Nat)), 0 < maxScore l →
    (l.find? (fun p => decide (maxScore l ≤ p.2))).isSome = true := by
  intro l
  induction l with
  | nil => intro h; simp [maxScore] at h
  | cons x t ih =>
    intro h
    by_cases hx : maxScore (x :: t) ≤ x.2
    · rw [List.find?_cons_of_pos _ (by simpa using hx)]
      rfl
    · have hlt : x.2 < maxScore (x :: t) := Nat.lt_of_not_le hx
      have hm : maxScore (x :: t) = maxScore t := by
        rw [maxScore_cons]
        rcases Nat.le_total x.2 (maxScore t) with hle | hle
        · exact Nat.max_eq_right hle
        · exfalso
          rw [maxScore_cons, Nat.max_eq_left hle] at hlt
          exact absurd hlt (lt_irrefl _)
      rw [List.find?_cons_of_neg _ (by simpa using hx)]
      simp only [hm]
      exact ih (hm ▸ h)

/-- The selection loop of `classify_email` keeps the accumulator when no
score exceeds it, and otherwise lands on the first list entry achieving
the maximal score. -/
theorem foldl_bestStep_char : ∀ (l : List (String × Nat)) (acc : String × Nat),
    l.foldl bestStep acc =
      if maxScore l ≤ acc.2 then acc
      else (l.find? (fun p => decide (maxScore l ≤ p.2))).getD acc := by
  intro l
  induction l with
  | nil => intro acc; simp [maxScore]
  | cons x t ih =>
    intro acc
    rw [List.foldl_cons]
    by_cases hax : acc.2 < x.2
    · rw [show bestStep acc x = x from if_pos hax, ih x]
      by_cases hmt : maxScore t ≤ x.2
      · have hm : maxScore (x :: t) = x.2 := by
          rw [maxScore_cons]; exact Nat.max_eq_left hmt
        rw [if_pos hmt, if_neg (by rw [hm]; omega),
          List.find?_cons_of_pos _ (by simp [hm])]
        rfl
      · have hlt : x.2 < maxScore t := Nat.lt_of_not_le hmt
        have hm : maxScore (x :: t) = maxScore t := by
          rw [maxScore_cons]; exact Nat.max_eq_right (le_of_lt hlt)
        rw [if_neg hmt, if_neg (by rw [hm]; omega),
          List.find?_cons_of_neg _ (by simp only [hm]; simp; omega)]
        simp only [hm]
        obtain ⟨v, hv⟩ := Option.isSome_iff_exists.mp (find?_maxScore_isSome t (by omega))
        rw [hv]
        rfl
    · have hxle : x.2 ≤ acc.2 := Nat.le_of_not_lt hax
      rw [show bestStep acc x = acc from if_neg hax, ih acc]
      by_cases hmt : maxScore t ≤ acc.2
      · have hm : maxScore (x :: t) ≤ acc.2 := by
          rw [maxScore_cons]; exact Nat.max_le.mpr ⟨hxle, hmt⟩
        rw [if_pos hmt, if_pos hm]
      · have hmtlt : acc.2 < maxScore t := Nat.lt_of_not_le hmt
        have hm : maxScore (x :: t) = maxScore t := by
          rw [maxScore_cons]; exact Nat.max_eq_right (by omega)
        rw [if_neg hmt, if_neg (by rw [hm]; omega),
          List.find?_cons_of_neg _ (by simp only [hm]; simp; omega)]
        simp only [hm]

theorem find?_maxScore_congr (l : List (String × Nat)) :
    l.find? (fun p => decide (maxScore l ≤ p.2)) =
      l.find? (fun p => p.2 == maxScore l) := by
  apply findCongr
  intro p hp
  have hle := le_maxScore_of_mem hp
  by_cases hpe : p.2 = maxScore l
  · simp [hpe]
  · have h2 : ¬ (maxScore l ≤ p.2) := by omega
    simp [h2, hpe]

theorem classify_email_eq_spec (t : PyStr) : classify_email t = specClassify t := by
  simp only [classify_email, specClassify]
  rw [foldl_bestStep_char]
  by_cases hm : maxScore (classifyScores t) = 0
  · rw [if_pos (by omega), if_pos hm]
  · have hpos : 0 < maxScore (classifyScores t) := Nat.pos_of_ne_zero hm
    rw [if_neg (by omega), if_neg hm, find?_maxScore_congr]
    obtain ⟨v, hv⟩ := Option.isSome_iff_exists.mp
      (find?_maxScore_congr (classifyScores t) ▸
        find?_maxScore_isSome (classifyScores t) hpos)
    rw [hv]
    rfl

theorem classify_uncategorized_iff (t : PyStr) :
    classify_email t = "Uncategorized" ↔ ∀ p ∈ classifyScores t, p.2 = 0 := by
  constructor
  · intro h
    rw [← maxScore_eq_zero_iff]
    by_contra hm
    have hpos : 0 < maxScore (classifyScores t) := Nat.pos_of_ne_zero hm
    rw [classify_email_eq_spec] at h
    simp only [specClassify] at h
    rw [if_neg hm] at h
    obtain ⟨v, hv⟩ := Option.isSome_iff_exists.mp
      (find?_maxScore_congr (classifyScores t) ▸
        find?_maxScore_isSome (classifyScores t) hpos)
    rw [hv] at h
    have hmem : v ∈ classifyScores t := List.mem_of_find?_eq_some hv
    have hname : v.1 ∈ KEYWORD_CATEGORIES.map Prod.fst := by
      simp only [classifyScores] at hmem
      obtain ⟨c, hc, hcv⟩ := List.mem_map.mp hmem
      exact List.mem_map.mpr ⟨c, hc, by rw [← hcv]⟩
    have : v.1 = "Uncategorized" := by simpa using h
    rw [this] at hname
    exact absurd hname (by decide)
  · intro h
    have hm : maxScore (classifyScores t) = 0 := (maxScore_eq_zero_iff _).mpr h
    simp only [classify_email]
    rw [foldl_bestStep_char, if_pos (by omega)]

/-- C5: for every input text, `classify_email` scores each category by the
number of its keyword phrases occurring as case-insensitive substrings,
returns the first-declared category with the highest score (the spec-side
`specClassify`), returns "Uncategorized" exactly when every category
scores zero, and classifies text containing only "unsubscribe" and
"discount" as "Promotions". -/
theorem classify_email_matches_spec :
    (∀ t : PyStr, classify_email t = specClassify t) ∧
    (∀ t : PyStr, (classify_email t = "Uncategorized" ↔ ∀ p ∈ classifyScores t, p.2 = 0)) ∧
    classify_email ("unsubscribe discount".data) = "Promotions" :=
  ⟨classify_email_eq_spec, classify_uncategorized_iff, by decide⟩

/-- C5 witness: the theorem applied at concrete inputs. -/
theorem classify_email_matches_spec_witness :
    classify_email ("free shipping on your order".data) =
      specClassify ("free shipping on your order".data) ∧
    classify_email ("unsubscribe discount".data) = "Promotions" ∧
    classify_email ("qqq".data) = "Uncategorized" :=
  ⟨classify_email_matches_spec.1 _, classify_email_matches_spec.2.2,
   (classify_email_matches_spec.2.1 ("qqq".data)).mpr (by decide)⟩

/-! ### Orchestrator lemmas -/

theorem withSummary_id (e : Email) (s : PyStr) : (withSummary e s).id = e.id := rfl

theorem withSummary_category (e : Email) (s : PyStr) :
    (withSummary e s).category = e.category := rfl

theorem withSummary_summary (e : Email) (s : PyStr) :
    (withSummary e s).summary = some s := rfl

theorem withSummary_priority (e : Email) (s : PyStr) :
    (withSummary e s).priority_score = e.priority_score := rfl

theorem withSummary_action (e : Email) (s : PyStr) :
    (withSummary e s).suggested_action = e.suggested_action := rfl

theorem withSummary_subject (e : Email) (s : PyStr) :
    (withSummary e s).subject = e.subject := rfl

theorem withSummary_body (e : Email) (s : PyStr) : (withSummary e s).body = e.body := rfl

theorem withSummary_sender (e : Email) (s : PyStr) :
    (withSummary e s).sender = e.sender := rfl

/-- A committed write of the loaded row `e'` leaves it findable by its
primary key in place of the previously found row. -/
theorem find?_writeEmail : ∀ (l : List Email) (n : Nat) (e e' : Email),
    l.find? (fun x => x.id == n) = some e → e'.id = e.id →
    (l.map (fun x => if x.id == e'.id then e' else x)).find?
      (fun x => x.id == n) = some e' := by
  intro l
  induction l with
  | nil => intro n e e' h _; simp at h
  | cons x t ih =>
    intro n e e' hfind hid
    cases hx : (x.id == n) with
    | true =>
      have hfc : (x :: t).find? (fun y => y.id == n) = some x :=
        List.find?_cons_of_pos _ hx
      rw [hfc] at hfind
      have hxe : x = e := Option.some.inj hfind
      have hxid : (x.id == e'.id) = true := by
        rw [hid, ← hxe]
        simp
      rw [List.map_cons, if_pos hxid]
      have hen : (e'.id == n) = true := by rw [hid, ← hxe]; exact hx
      exact List.find?_cons_of_pos _ hen
    | false =>
      have hfc : (x :: t).find? (fun y => y.id == n) = t.find? (fun y => y.id == n) :=
        List.find?_cons_of_neg _ (by simp [hx])
      rw [hfc] at hfind
      have hen : e.id = n := by simpa using List.find?_some hfind
      have hxn : x.id ≠ n := by simpa using hx
      have hxe' : ¬ ((x.id == e'.id) = true) := by
        rw [hid, hen]
        simp [hxn]
      rw [List.map_cons, if_neg hxe']
      have hfc2 : (x :: t.map (fun y => if y.id == e'.id then e' else y)).find?
          (fun y => y.id == n) =
          (t.map (fun y => if y.id == e'.id then e' else y)).find? (fun y => y.id == n) :=
        List.find?_cons_of_neg _ (by simp [hx])
      rw [hfc2]
      exact ih n e e' hfind hid

theorem annotateRest_id (e : Email) (u : PyStr) : (annotateRest e u).id = e.id := by
  simp only [annotateRest]
  cases hda : determine_action (pyFString e.subject ++ " ".data ++ pyFString e.body)
      (classify_email (pyFString e.subject ++ " ".data ++ pyFString e.body)) with
  | none => rfl
  | some a =>
    by_cases ha : a = "" <;> simp [ha]

theorem annotateRest_summary (e : Email) (u : PyStr) :
    (annotateRest e u).summary = e.summary := by
  simp only [annotateRest]
  cases hda : determine_action (pyFString e.subject ++ " ".data ++ pyFString e.body)
      (classify_email (pyFString e.subject ++ " ".data ++ pyFString e.body)) with
  | none => rfl
  | some a =>
    by_cases ha : a = "" <;> simp [ha]

theorem annotateRest_priority (e : Email) (u : PyStr) :
    (annotateRest e u).priority_score =
      calculate_priority_score ⟨e.subject, e.body, e.sender⟩ u := by
  simp only [annotateRest]
  cases hda : determine_action (pyFString e.subject ++ " ".data ++ pyFString e.body)
      (classify_email (pyFString e.subject ++ " ".data ++ pyFString e.body)) with
  | none => rfl
  | some a =>
    by_cases ha : a = "" <;> simp [ha]

theorem stepSummary_skip (db : Store) (summarizer : Option (PyStr → ModelResult))
    (e : Email) (h : pyTruthy e.summary = true) :
    stepSummary db summarizer e = (e, db, false) := by
  simp [stepSummary, h]

theorem stepSummary_run (db : Store) (summarizer : Option (PyStr → ModelResult))
    (e : Email) (h : pyTruthy e.summary = false) :
    stepSummary db summarizer e =
      (withSummary e (summarize_text summarizer (e.body.getD [])),
       writeEmail db (withSummary e (summarize_text summarizer (e.body.getD []))),
       true) := by
  simp [stepSummary, h]

theorem process_eq_processBody (db : Store) (summarizer : Option (PyStr → ModelResult))
    (email_id : Nat) (u : PyStr) (e : Email)
    (hfind : db.emails.find? (fun x => x.id == email_id) = some e)
    (hbody : pyTruthy e.body = true) :
    process_single_email db summarizer email_id u = processBody db summarizer e u := by
  unfold process_single_email
  rw [hfind]
  simp [hbody]

theorem processBody_eq (db : Store) (summarizer : Option (PyStr → ModelResult))
    (e e1 : Email) (db1 : Store) (inv : Bool) (u : PyStr)
    (hstep : stepSummary db summarizer e = (e1, db1, inv)) :
    processBody db summarizer e u =
      if e1.category = "Uncategorized"
      then ⟨writeEmail db1 (annotateRest e1 u), inv, true, true, false⟩
      else ⟨db1, inv, true, false, true⟩ := by
  simp only [processBody, hstep]

/-! ### Claims C1, C2, C3 — the orchestrator -/

/-- C1: evaluation of the failing run.  On a stored message with a body,
no summary, and a non-default category, the run commits the summary stage
(inside `update_email_summary`) and then aborts on the action step's
unbound-local error, rolling back the staged category/priority/action
writes: afterwards exactly one of the four annotation stages is applied —
neither all four nor none, contradicting per-message atomicity. -/
theorem summary_commit_breaks_atomicity :
    (process_single_email atomicityStore none 1 ("bob@x.com".data)).committedAll = false ∧
    (process_single_email atomicityStore none 1 ("bob@x.com".data)).raisedUnboundLocal = true ∧
    (process_single_email atomicityStore none 1 ("bob@x.com".data)).db.emails.map
      (fun e => e.summary) = [some unavailableMsg] ∧
    (process_single_email atomicityStore none 1 ("bob@x.com".data)).db.emails.map
      (fun e => (e.category, e.priority_score, e.suggested_action)) =
      [("Work", 0, none)] := by
  decide

/-- C2, counterexample to the claim as stated: on a fresh message the
first run commits and sets the category to "Work"; the second run then
stages the recomputed priority score but aborts on the unbound-local
error before the final commit, so the priority score is NOT persisted on
the second run (the store is left unchanged). -/
theorem orchestrator_second_run_not_persisted :
    (process_single_email freshStore none 1 ("bob@x.com".data)).committedAll = true ∧
    (process_single_email (process_single_email freshStore none 1 ("bob@x.com".data)).db
        none 1 ("bob@x.com".data)).stagedPriority = true ∧
    (process_single_email (process_single_email freshStore none 1 ("bob@x.com".data)).db
        none 1 ("bob@x.com".data)).committedAll = false ∧
    (process_single_email (process_single_email freshStore none 1 ("bob@x.com".data)).db
        none 1 ("bob@x.com".data)).db =
      (process_single_email freshStore none 1 ("bob@x.com".data)).db := by
  decide

/-- C2 (amended): a run on a fresh message (summary unset, category at
its default) invokes the summarizer and commits the recomputed priority
score.  A later run on a message whose summary is set never re-invokes
the summarizer and leaves the summary unchanged; it recomputes and
persists the priority score when the category is still "Uncategorized",
but when the category is no longer at its default it stages the priority
score and then aborts on the unbound-local error, persisting nothing. -/
theorem orchestrator_skip_recompute (db : Store)
    (summarizer : Option (PyStr → ModelResult)) (email_id : Nat)
    (user_email : PyStr) (e : Email)
    (hfind : db.emails.find? (fun x => x.id == email_id) = some e)
    (hbody : pyTruthy e.body = true) :
    (pyTruthy e.summary = false → e.category = "Uncategorized" →
      (process_single_email db summarizer email_id user_email).committedAll = true ∧
      (process_single_email db summarizer email_id user_email).invokedSummarizer = true ∧
      ∃ m, (process_single_email db summarizer email_id user_email).db.emails.find?
          (fun x => x.id == email_id) = some m ∧
        m.summary = some (summarize_text summarizer (e.body.getD [])) ∧
        m.priority_score = calculate_priority_score ⟨e.subject, e.body, e.sender⟩ user_email) ∧
    (pyTruthy e.summary = true →
      (process_single_email db summarizer email_id user_email).invokedSummarizer = false ∧
      (∃ m, (process_single_email db summarizer email_id user_email).db.emails.find?
          (fun x => x.id == email_id) = some m ∧ m.summary = e.summary) ∧
      (e.category = "Uncategorized" →
        (process_single_email db summarizer email_id user_email).committedAll = true ∧
        ∃ m, (process_single_email db summarizer email_id user_email).db.emails.find?
            (fun x => x.id == email_id) = some m ∧
          m.priority_score = calculate_priority_score ⟨e.subject, e.body, e.sender⟩ user_email) ∧
      (e.category ≠ "Uncategorized" →
        (process_single_email db summarizer email_id user_email).db = db ∧
        (process_single_email db summarizer email_id user_email).stagedPriority = true ∧
        (process_single_email db summarizer email_id user_email).committedAll = false)) := by
  constructor
  · intro hsum hcat
    rw [process_eq_processBody db summarizer email_id user_email e hfind hbody,
      processBody_eq db summarizer e _ _ _ user_email (stepSummary_run db summarizer e hsum),
      withSummary_category, if_pos hcat]
    refine ⟨rfl, rfl,
      annotateRest (withSummary e (summarize_text summarizer (e.body.getD []))) user_email,
      ?_, ?_, ?_⟩
    · have h1 : (writeEmail db (withSummary e (summarize_text summarizer (e.body.getD [])))).emails.find?
          (fun x => x.id == email_id) =
          some (withSummary e (summarize_text summarizer (e.body.getD []))) :=
        find?_writeEmail db.emails email_id e _ hfind rfl
      exact find?_writeEmail _ email_id _ _ h1 (annotateRest_id _ _)
    · rw [annotateRest_summary, withSummary_summary]
    · rw [annotateRest_priority, withSummary_subject, withSummary_body, withSummary_sender]
  · intro hsum
    rw [process_eq_processBody db summarizer email_id user_email e hfind hbody,
      processBody_eq db summarizer e _ _ _ user_email (stepSummary_skip db summarizer e hsum)]
    by_cases hcat : e.category = "Uncategorized"
    · rw [if_pos hcat]
      refine ⟨rfl,
        ⟨annotateRest e user_email,
         find?_writeEmail db.emails email_id e _ hfind (annotateRest_id _ _),
         annotateRest_summary _ _⟩,
        fun _ => ⟨rfl, annotateRest e user_email,
          find?_writeEmail db.emails email_id e _ hfind (annotateRest_id _ _),
          annotateRest_priority _ _⟩,
        fun hne => absurd hcat hne⟩
    · rw [if_neg hcat]
      exact ⟨rfl, ⟨e, hfind, rfl⟩, fun hc => absurd hc hcat, fun _ => ⟨rfl, rfl, rfl⟩⟩

/-- C2 witness: the theorem applied at three concrete stores — a second
run with the category still at its default skips the summarizer, a
second run with category "Work" leaves the store unchanged, and a first
run on a fresh message commits. -/
theorem orchestrator_skip_recompute_witness :
    (process_single_email stillUncatStore none 1 ("bob@x.com".data)).invokedSummarizer = false ∧
    (process_single_email processedStore none 1 ("bob@x.com".data)).db = processedStore ∧
    (process_single_email freshStore none 1 ("bob@x.com".data)).committedAll = true :=
  ⟨((orchestrator_skip_recompute stillUncatStore none 1 ("bob@x.com".data) stillUncatEmail
      (by decide) (by decide)).2 (by decide)).1,
   (((orchestrator_skip_recompute processedStore none 1 ("bob@x.com".data) processedEmail
      (by decide) (by decide)).2 (by decide)).2.2.2 (by decide)).1,
   ((orchestrator_skip_recompute freshStore none 1 ("bob@x.com".data) freshEmail
      (by decide) (by decide)).1 (by decide) (by decide)).1⟩

/-- C3: for every stored message with a non-empty body whose category is
not "Uncategorized" at the start of a run, the categorization branch is
skipped, the action step raises the unbound-local error, the run is
rolled back before its final commit, and the stored message's category,
priority score and suggested action are unchanged by the run. -/
theorem skip_categorization_aborts_run (db : Store)
    (summarizer : Option (PyStr → ModelResult)) (email_id : Nat)
    (user_email : PyStr) (e : Email)
    (hfind : db.emails.find? (fun x => x.id == email_id) = some e)
    (hbody : pyTruthy e.body = true)
    (hcat : e.category ≠ "Uncategorized") :
    (process_single_email db summarizer email_id user_email).raisedUnboundLocal = true ∧
    (process_single_email db summarizer email_id user_email).committedAll = false ∧
    ∃ m, (process_single_email db summarizer email_id user_email).db.emails.find?
        (fun x => x.id == email_id) = some m ∧
      m.category = e.category ∧
      m.priority_score = e.priority_score ∧
      m.suggested_action = e.suggested_action := by
  rw [process_eq_processBody db summarizer email_id user_email e hfind hbody]
  cases hsum : pyTruthy e.summary with
  | true =>
    rw [processBody_eq db summarizer e _ _ _ user_email (stepSummary_skip db summarizer e hsum),
      if_neg hcat]
    exact ⟨rfl, rfl, e, hfind, rfl, rfl, rfl⟩
  | false =>
    rw [processBody_eq db summarizer e _ _ _ user_email (stepSummary_run db summarizer e hsum),
      withSummary_category, if_neg hcat]
    exact ⟨rfl, rfl, withSummary e (summarize_text summarizer (e.body.getD [])),
      find?_writeEmail db.emails email_id e _ hfind rfl,
      withSummary_category _ _, withSummary_priority _ _, withSummary_action _ _⟩

/-- C3 witness: the theorem applied at the concrete store whose one
message has category "Work" and no summary. -/
theorem skip_categorization_aborts_run_witness :
    (process_single_email atomicityStore none 1 ("bob@x.com".data)).raisedUnboundLocal = true ∧
    (process_single_email atomicityStore none 1 ("bob@x.com".data)).committedAll = false :=
  ⟨(skip_categorization_aborts_run atomicityStore none 1 ("bob@x.com".data) atomicityEmail
      (by decide) (by decide) (by decide)).1,
   (skip_categorization_aborts_run atomicityStore none 1 ("bob@x.com".data) atomicityEmail
      (by decide) (by decide) (by decide)).2.1⟩

/-! ### Claim C9 — ingestion idempotence -/

theorem create_email_skip (db : Store) (o : Nat) (d : EmailDraft)
    (h : db.emails.any (fun e => e.message_id == d.message_id) = true) :
    create_email db o d = db := by
  simp [create_email, h]

theorem create_email_insert (db : Store) (o : Nat) (d : EmailDraft)
    (h : db.emails.any (fun e => e.message_id == d.message_id) = false) :
    create_email db o d =
      ⟨db.emails ++ [newEmailRow db o d], db.nextId + 1⟩ := by
  simp [create_email, h]

/-- C9: ingesting a raw message whose identifier is already present
anywhere in the store is a no-op (the whole store is unchanged, so the
existing row's fields are untouched), and ingesting the same draft twice
into a store that does not yet hold its identifier leaves exactly one
stored message with that identifier. -/
theorem create_email_idempotent (db : Store) (o o2 : Nat) (d : EmailDraft) :
    (db.emails.any (fun e => e.message_id == d.message_id) = true →
      create_email db o d = db) ∧
    ((∀ e ∈ db.emails, e.message_id ≠ d.message_id) →
      ((create_email (create_email db o d) o2 d).emails.filter
        (fun e => e.message_id == d.message_id)).length = 1) := by
  constructor
  · exact create_email_skip db o d
  · intro h
    have hany : db.emails.any (fun e => e.message_id == d.message_id) = false := by
      rw [List.any_eq_false]
      intro e he
      simp [h e he]
    rw [create_email_insert db o d hany]
    have hany2 : ((db.emails ++ [newEmailRow db o d]).any
        (fun e => e.message_id == d.message_id)) = true := by
      simp [List.any_append, newEmailRow]
    rw [create_email_skip ⟨db.emails ++ [newEmailRow db o d], db.nextId + 1⟩ o2 d hany2]
    show ((db.emails ++ [newEmailRow db o d]).filter
      (fun e => e.message_id == d.message_id)).length = 1
    rw [List.filter_append]
    have hf1 : db.emails.filter (fun e => e.message_id == d.message_id) = [] := by
      rw [List.filter_eq_nil_iff]
      intro e he
      simp [h e he]
    simp [hf1, newEmailRow]

/-- C9 witness: ingesting the sample draft twice into the empty store
leaves exactly one row with its identifier, and re-ingesting it into the
resulting store is a no-op. -/
theorem create_email_idempotent_witness :
    ((create_email (create_email emptyStore 1 sampleDraft) 2 sampleDraft).emails.filter
      (fun e => e.message_id == sampleDraft.message_id)).length = 1 ∧
    create_email (create_email emptyStore 1 sampleDraft) 2 sampleDraft =
      create_email emptyStore 1 sampleDraft :=
  ⟨(create_email_idempotent emptyStore 1 2 sampleDraft).2 (by decide),
   (create_email_idempotent (create_email emptyStore 1 sampleDraft) 2 2 sampleDraft).1
     (by decide)⟩

/-! ### Claim C10 — the dossier aggregator -/

/-- C10: when no stored message of the user matches the search token
(case-insensitive sender substring) inside the trailing 180-day window,
the dossier is the zero-valued record; when N > 0 messages match,
`total_emails = N` and the average priority score is the arithmetic mean
of the N scores rounded to 2 decimals. -/
theorem dossier_aggregation_correct (db : Store) (userId : Nat) (q : PyStr)
    (now : Int) (fmtDate : Int → String) :
    ((∀ e ∈ db.emails, ¬(e.owner_id = userId ∧ matchesSender e.sender q = true ∧
        inWindow e.received_at (now - 180) = true)) →
      get_dossier_for_sender db userId q now fmtDate =
        ⟨0, [], 0, none, none, [], "No emails found in last 6 months"⟩) ∧
    (∀ N : Nat, (db.emails.filter (dossierMatch userId q (now - 180))).length = N →
      0 < N →
      (get_dossier_for_sender db userId q now fmtDate).total_emails = N ∧
      (get_dossier_for_sender db userId q now fmtDate).average_priority_score =
        roundTo2 (((((db.emails.filter (dossierMatch userId q (now - 180))).map
          (fun e => e.priority_score)).sum : Int) : ℚ) / (N : ℚ))) := by
  constructor
  · intro h
    have hfil : db.emails.filter (dossierMatch userId q (now - 180)) = [] := by
      rw [List.filter_eq_nil_iff]
      intro e he
      have he2 := h e he
      simp only [dossierMatch, Bool.and_eq_true, beq_iff_eq]
      intro hcon
      exact he2 ⟨hcon.1.1, hcon.1.2, hcon.2⟩
    unfold get_dossier_for_sender dossierSelect
    rw [hfil, List.mergeSort_nil]
    rfl
  · intro N hN hpos
    unfold get_dossier_for_sender dossierSelect
    have hlen : ((db.emails.filter (dossierMatch userId q (now - 180))).mergeSort
        (fun a b => b.received_at.getD 0 ≤ a.received_at.getD 0)).length = N := by
      rw [List.length_mergeSort]
      exact hN
    have hperm := List.mergeSort_perm (db.emails.filter (dossierMatch userId q (now - 180)))
      (fun a b => b.received_at.getD 0 ≤ a.received_at.getD 0)
    have hsum : (((db.emails.filter (dossierMatch userId q (now - 180))).mergeSort
          (fun a b => b.received_at.getD 0 ≤ a.received_at.getD 0)).map
          (fun e => e.priority_score)).sum =
        ((db.emails.filter (dossierMatch userId q (now - 180))).map
          (fun e => e.priority_score)).sum :=
      (hperm.map (fun e => e.priority_score)).sum_eq
    cases hms : (db.emails.filter (dossierMatch userId q (now - 180))).mergeSort
        (fun a b => b.received_at.getD 0 ≤ a.received_at.getD 0) with
    | nil =>
      rw [hms] at hlen
      simp at hlen
      omega
    | cons f r =>
      rw [hms] at hlen hsum
      constructor
      · show (dossierOf (f :: r) fmtDate).total_emails = N
        simp only [dossierOf]
        exact hlen
      · show (dossierOf (f :: r) fmtDate).average_priority_score = _
        simp only [dossierOf]
        rw [if_pos (by simp)]
        rw [hsum, hlen]

/-- C10 witness: the theorem applied at a concrete two-message store,
once with a token matching nothing and once with a token matching both
messages. -/
theorem dossier_aggregation_correct_witness :
    get_dossier_for_sender dossierStore 1 ("zzz".data) 1000 (fun _ => "") =
      ⟨0, [], 0, none, none, [], "No emails found in last 6 months"⟩ ∧
    (get_dossier_for_sender dossierStore 1 ("alice".data) 1000 (fun _ => "")).total_emails = 2 ∧
    (get_dossier_for_sender dossierStore 1 ("alice".data) 1000 (fun _ => "")).average_priority_score =
      roundTo2 (((((dossierStore.emails.filter
        (dossierMatch 1 ("alice".data) (1000 - 180))).map
        (fun e => e.priority_score)).sum : Int) : ℚ) / ((2 : Nat) : ℚ)) :=
  ⟨(dossier_aggregation_correct dossierStore 1 ("zzz".data) 1000 (fun _ => "")).1 (by decide),
   ((dossier_aggregation_correct dossierStore 1 ("alice".data) 1000 (fun _ => "")).2 2
     (by decide) (by decide)).1,
   ((dossier_aggregation_correct dossierStore 1 ("alice".data) 1000 (fun _ => "")).2 2
     (by decide) (by decide)).2⟩

end MajorMail
